import Mathlib

/-!
Verification of the event-forwarding pipeline in
locust_plugins/backend_base.py.

The file shallowly embeds the Python source: queues become lists or an
explicit bounded-queue structure, Python dicts produced by the json module
become association lists of JSON values, raising an exception becomes
returning an error value of an Except type, and the background dispatch
loop becomes a recursive function over the queue contents whose result
records the completed deliveries and the way the loop ended.
-/

set_option autoImplicit false

/-- JSON values as handled by the Python json module, restricted to the
shapes the embedded templates can produce: objects, strings, integers,
booleans and null (the code under study never builds arrays or floats). -/
inductive JVal where
  | jstr (s : String)
  | jnum (n : Int)
  | jbool (b : Bool)
  | jnull
  | jobj (fields : List (String × JVal))

/-- JSON whitespace characters accepted between tokens by json.loads. -/
def isJsonWs (c : Char) : Bool :=
  c = ' ' || c = '\t' || c = '\n' || c = '\r'

/-- Drop leading JSON whitespace. -/
def skipWs (cs : List Char) : List Char :=
  cs.dropWhile isJsonWs

/-- Value of one hexadecimal digit, as used in a JSON \u escape. -/
def hexVal (c : Char) : Option Nat :=
  if c.isDigit then some (c.toNat - 48)
  else if 'a' ≤ c ∧ c ≤ 'f' then some (c.toNat - 87)
  else if 'A' ≤ c ∧ c ≤ 'F' then some (c.toNat - 55)
  else none

/-- Decoding of the single-character JSON string escapes accepted by
json.loads; any other escape character is a decode error. -/
def simpleEsc (c : Char) : Option Char :=
  if c = '"' then some '"'
  else if c = '\\' then some '\\'
  else if c = '/' then some '/'
  else if c = 'b' then some (Char.ofNat 8)
  else if c = 'f' then some (Char.ofNat 12)
  else if c = 'n' then some '\n'
  else if c = 'r' then some '\r'
  else if c = 't' then some '\t'
  else none

/-- Body of a JSON string literal (the opening quote already consumed).
Returns the decoded string and the input after the closing quote.
Unescaped control characters are rejected, as json.loads does in its
default strict mode. Fuel bounds the recursion; it is always called with
more fuel than there are characters. -/
def parseStringBody : Nat → List Char → Option (String × List Char)
  | 0, _ => none
  | _ + 1, [] => none
  | fuel + 1, c :: rest =>
    if c = '"' then some ("", rest)
    else if c = '\\' then
      match rest with
      | 'u' :: h1 :: h2 :: h3 :: h4 :: rest2 =>
        match hexVal h1, hexVal h2, hexVal h3, hexVal h4 with
        | some a, some b, some d, some e =>
          match parseStringBody fuel rest2 with
          | some (s, r) =>
            some ((Char.ofNat (((a * 16 + b) * 16 + d) * 16 + e)).toString ++ s, r)
          | none => none
        | _, _, _, _ => none
      | e :: rest2 =>
        match simpleEsc e with
        | some ec =>
          match parseStringBody fuel rest2 with
          | some (s, r) => some (ec.toString ++ s, r)
          | none => none
        | none => none
      | [] => none
    else if c.toNat < 32 then none
    else
      match parseStringBody fuel rest with
      | some (s, r) => some (c.toString ++ s, r)
      | none => none

/-- Numeric value of a list of decimal digits. -/
def digitsToNat (ds : List Char) : Nat :=
  ds.foldl (fun n c => 10 * n + (c.toNat - 48)) 0

/-- JSON number parsing, restricted to the integers the embedded templates
produce (the source only ever interpolates integral times and lengths). -/
def parseNumber (cs : List Char) : Option (Int × List Char) :=
  match cs with
  | '-' :: rest =>
    let ds := rest.takeWhile Char.isDigit
    if ds.isEmpty then none
    else some (-(digitsToNat ds : Int), rest.drop ds.length)
  | _ =>
    let ds := cs.takeWhile Char.isDigit
    if ds.isEmpty then none
    else some ((digitsToNat ds : Int), cs.drop ds.length)

mutual

/-- One JSON value, as by the recursive-descent reader of json.loads.
Returns the value and the unconsumed remainder of the input. -/
def parseValue : Nat → List Char → Option (JVal × List Char)
  | 0, _ => none
  | fuel + 1, cs =>
    match skipWs cs with
    | [] => none
    | c :: rest =>
      if c = '"' then
        match parseStringBody (rest.length + 1) rest with
        | some (s, r) => some (JVal.jstr s, r)
        | none => none
      else if c = '\x7b' then
        match skipWs rest with
        | '\x7d' :: r2 => some (JVal.jobj [], r2)
        | r2 =>
          match parseFields fuel r2 with
          | some (fs, r3) => some (JVal.jobj fs, r3)
          | none => none
      else if c = 't' then
        match rest with
        | 'r' :: 'u' :: 'e' :: r => some (JVal.jbool true, r)
        | _ => none
      else if c = 'f' then
        match rest with
        | 'a' :: 'l' :: 's' :: 'e' :: r => some (JVal.jbool false, r)
        | _ => none
      else if c = 'n' then
        match rest with
        | 'u' :: 'l' :: 'l' :: r => some (JVal.jnull, r)
        | _ => none
      else
        match parseNumber (c :: rest) with
        | some (n, r) => some (JVal.jnum n, r)
        | none => none

/-- Nonempty field list of a JSON object: key, colon, value, then either a
comma and more fields or the closing brace. -/
def parseFields : Nat → List Char → Option (List (String × JVal) × List Char)
  | 0, _ => none
  | fuel + 1, cs =>
    match skipWs cs with
    | '"' :: rest =>
      match parseStringBody (rest.length + 1) rest with
      | some (k, r1) =>
        match skipWs r1 with
        | ':' :: r2 =>
          match parseValue fuel r2 with
          | some (v, r3) =>
            match skipWs r3 with
            | ',' :: r4 =>
              match parseFields fuel r4 with
              | some (fs, r5) => some ((k, v) :: fs, r5)
              | none => none
            | '\x7d' :: r4 => some ([(k, v)], r4)
            | _ => none
          | none => none
        | _ => none
      | none => none
    | _ => none

end

/-- Model of json.loads: parse one value and require that only whitespace
remains; on any parse error the Python call raises JSONDecodeError, here
none. -/
def json_loads (s : String) : Option JVal :=
  match parseValue (s.length + 1) s.data with
  | some (v, rest) => if (skipWs rest).isEmpty then some v else none
  | none => none

/-- One hexadecimal digit, lower case, for control-character escapes. -/
def hexDigit (n : Nat) : String :=
  if n < 10 then (Char.ofNat (48 + n)).toString
  else (Char.ofNat (87 + n)).toString

/-- Escaping of one character inside a JSON string literal, as json.dumps
performs it. -/
def escapeChar (c : Char) : String :=
  if c = '"' then "\\\""
  else if c = '\\' then "\\\\"
  else if c = '\n' then "\\n"
  else if c = '\t' then "\\t"
  else if c = '\r' then "\\r"
  else if c = Char.ofNat 8 then "\\b"
  else if c = Char.ofNat 12 then "\\f"
  else if c.toNat < 32 then "\\u00" ++ hexDigit (c.toNat / 16) ++ hexDigit (c.toNat % 16)
  else c.toString

/-- A JSON string literal for s, as json.dumps renders it. -/
def dumpString (s : String) : String :=
  "\"" ++ String.join (s.data.map escapeChar) ++ "\""

mutual

/-- Model of json.dumps with its default separators: items joined by a
comma and a space, key and value joined by a colon and a space. -/
def json_dumps : JVal → String
  | JVal.jstr s => dumpString s
  | JVal.jnum n => toString n
  | JVal.jbool true => "true"
  | JVal.jbool false => "false"
  | JVal.jnull => "null"
  | JVal.jobj fs => "\x7b" ++ dumpFields fs ++ "\x7d"

/-- The comma-separated field list of a dumped JSON object. -/
def dumpFields : List (String × JVal) → String
  | [] => ""
  | [(k, v)] => dumpString k ++ ": " ++ json_dumps v
  | (k, v) :: rest => dumpString k ++ ": " ++ json_dumps v ++ ", " ++ dumpFields rest

end

/-- A message on the forwarder queue, as built by the listener hooks:
a dict with a type tag (success or failure) and the parsed JSON payload
(source lines 31 and 40). -/
structure Msg where
  type : String
  payload : JVal

/-- Python exceptions the embedded listener code can raise: TypeError
(from percent-formatting with a mismatched argument count, or from a call
missing a required keyword argument) and JSONDecodeError from json.loads. -/
inductive PyErr where
  | typeError
  | jsonDecodeError
deriving DecidableEq

/-- Python percent-formatting of a template against a tuple of already
stringified arguments. The template is given as the segments between the
percent-s placeholders, so a template with n placeholders has n + 1
segments; supplying more or fewer arguments raises TypeError (none). -/
def percentFormat : List String → List String → Option String
  | [s], [] => some s
  | s :: rest, a :: args =>
    match percentFormat rest args with
    | some t => some (s ++ a ++ t)
    | none => none
  | _, _ => none

/-- OK_TEMPLATE of request_success (source line 29), split at its five
percent-s placeholders. -/
def OK_TEMPLATE : List String :=
  ["\x7b\"request_type\":\"", "\", \"name\":\"", "\", \"response_time\":",
   ", \"response_length\":", ", \"other\":", "\x7d"]

/-- ERR_TEMPLATE of request_failure (source line 38), split at its five
percent-s placeholders. -/
def ERR_TEMPLATE : List String :=
  ["\x7b\"request_type\":\"", "\", \"name\":\"", "\", \"response_time\":",
   ", \"exception\":\"", "\", \"other\":", "\x7d"]

/-- ForwardingListener.request_success (source lines 27 to 34): interpolate
the raw arguments into OK_TEMPLATE, re-parse with json.loads, and append
the resulting success message to the forwarder queue. The queue is the
list of messages already buffered; a raised exception is an error result
and leaves the queue untouched. -/
def ForwardingListener.request_success (queue : List Msg) (request_type name : String)
    (response_time response_length : Nat) (kwargs : List (String × JVal)) :
    Except PyErr (List Msg) :=
  match percentFormat OK_TEMPLATE
      [request_type, name, toString response_time, toString response_length,
       json_dumps (JVal.jobj kwargs)] with
  | none => Except.error PyErr.typeError
  | some json_string =>
    match json_loads json_string with
    | none => Except.error PyErr.jsonDecodeError
    | some payload => Except.ok (queue ++ [Msg.mk "success" payload])

/-- ForwardingListener.request_failure (source lines 36 to 43): the
six-element argument tuple of line 39 is reproduced verbatim, including
the literal ERR string inserted before response_time, against the
five-placeholder ERR_TEMPLATE. -/
def ForwardingListener.request_failure (queue : List Msg) (request_type name : String)
    (response_time : Nat) (exception : String) (kwargs : List (String × JVal)) :
    Except PyErr (List Msg) :=
  match percentFormat ERR_TEMPLATE
      [request_type, name, "ERR", toString response_time, exception,
       json_dumps (JVal.jobj kwargs)] with
  | none => Except.error PyErr.typeError
  | some json_string =>
    match json_loads json_string with
    | none => Except.error PyErr.jsonDecodeError
    | some payload => Except.ok (queue ++ [Msg.mk "failure" payload])

/-- The Python queue.Queue structure: a maxsize (zero means infinite, the
default of the bare Queue() constructor) and the buffered items in FIFO
order. -/
structure PyQueue where
  maxsize : Nat
  items : List Msg

/-- Outcome of Queue.put with its defaults (block true, no timeout): the
item is admitted, or the producer blocks forever because the queue is full
and stays full. -/
inductive PutOutcome where
  | admitted (q : PyQueue)
  | blockedForever

/-- Queue.put: admit whenever maxsize is zero (infinite) or there is room,
appending in FIFO order; on a full bounded queue with no consumer the call
blocks indefinitely. -/
def PyQueue.put (q : PyQueue) (m : Msg) : PutOutcome :=
  if q.maxsize = 0 ∨ q.items.length < q.maxsize then
    PutOutcome.admitted (PyQueue.mk q.maxsize (q.items ++ [m]))
  else PutOutcome.blockedForever

/-- The forwarder queue as created in ForwardingListener.init on source
line 17: a bare Queue(), hence maxsize zero, meaning unbounded. -/
def forwarderQueueInit : PyQueue :=
  PyQueue.mk 0 []

/-- ForwardingListener.add (source lines 45 to 52): put the message on the
forwarder queue. -/
def ForwardingListener.add (q : PyQueue) (m : Msg) : PutOutcome :=
  q.put m

/-- Sequentially add a list of messages; none if some put blocks forever. -/
def addAll (q : PyQueue) : List Msg → Option PyQueue
  | [] => some q
  | m :: rest =>
    match ForwardingListener.add q m with
    | PutOutcome.admitted q2 => addAll q2 rest
    | PutOutcome.blockedForever => none

/-- A Python object as the registry set sees it: its object identity (the
address-like value the default equality of object compares) and its class
name. -/
structure PyObj where
  objId : Nat
  className : String
deriving DecidableEq

/-- BackendAdapter.id (source lines 80 to 81): the string form of the
objects type. -/
def BackendAdapter.id (a : PyObj) : String :=
  a.className

/-- The hash key of an adapter in the backends set: BackendAdapter defines
hash as the hash of id (source lines 89 to 90), so two instances of one
class share it. The hash of a Python string is modelled by the string
itself. -/
def pyHash (a : PyObj) : String :=
  BackendAdapter.id a

/-- Equality as the backends set tests it: BackendAdapter does not
override the default object equality, which compares object identity. -/
def pyEq (a b : PyObj) : Bool :=
  a.objId == b.objId

/-- Membership test of the Python set: same hash bucket and equal. -/
def pyMatch (a b : PyObj) : Bool :=
  pyHash a == pyHash b && pyEq a b

/-- ForwardingListener.add_backend (source lines 19 to 21): set.add, which
keeps the set unchanged when an equal element is present and otherwise
inserts. -/
def ForwardingListener.add_backend (s : List PyObj) (x : PyObj) : List PyObj :=
  if s.any (fun y => pyMatch y x) then s else s ++ [x]

/-- The KeyError raised by set.remove on a missing element. -/
inductive PyKeyError where
  | keyError
deriving DecidableEq

/-- ForwardingListener.remove_backend (source lines 23 to 25): set.remove,
which deletes the equal element if present and raises KeyError
otherwise. -/
def ForwardingListener.remove_backend (s : List PyObj) (x : PyObj) :
    Except PyKeyError (List PyObj) :=
  if s.any (fun y => pyMatch y x) then
    Except.ok (s.filter (fun y => !(pyMatch y x)))
  else Except.error PyKeyError.keyError

/-- Which handler an event is routed to by the dispatch loop. -/
inductive HKind where
  | success
  | failure
deriving DecidableEq

/-- Routing of source lines 65 to 68: messages whose type tag is failure
go to handle_failure, every other message goes to handle_success. -/
def route (m : Msg) : HKind :=
  if m.type = "failure" then HKind.failure else HKind.success

/-- A backend adapter as the dispatch loop sees it: a name and, for each
message, whether its invoked handler raises an exception. -/
structure AdapterM where
  name : String
  raisesOn : Msg → Bool

/-- Fan-out of one dequeued message over the backends in iteration order
(the body of the for loop on source lines 63 to 68). There is no
try-except: the first handler that raises aborts the iteration, so the
result is the list of completed deliveries (adapter name, routed handler,
message) and whether an exception escaped. -/
def fanoutMsg (bs : List AdapterM) (m : Msg) : List (String × HKind × Msg) × Bool :=
  match bs with
  | [] => ([], false)
  | b :: rest =>
    if b.raisesOn m then ([], true)
    else
      let r := fanoutMsg rest m
      ((b.name, route m, m) :: r.1, r.2)

/-- How an execution of ForwardingListener.run ends, for a fixed queue
content: an adapter exception propagated out of the loop, the loop blocked
in Queue.get on the empty queue, or the quit flag was observed at the top
of the loop and the loop returned. -/
inductive RunExit where
  | exception
  | blocked
  | quitNow
deriving DecidableEq

/-- ForwardingListener.run (source lines 54 to 68) on a fixed quit flag
and queue content (nothing inside run ever modifies either): while quit is
unset, get one message (blocking forever when the queue is empty, since
Queue.get has no timeout and nothing closes the queue) and fan it out to
the backends. The result is the completed deliveries, the way the loop
ended, and the messages left undequeued. -/
def runLoop (quit : Bool) (bs : List AdapterM) : List Msg → List (String × HKind × Msg) × RunExit × List Msg
  | [] => if quit then ([], RunExit.quitNow, []) else ([], RunExit.blocked, [])
  | m :: rest =>
    if quit then ([], RunExit.quitNow, m :: rest)
    else
      let fo := fanoutMsg bs m
      if fo.2 then (fo.1, RunExit.exception, rest)
      else
        let r := runLoop quit bs rest
        (fo.1 ++ r.1, r.2.1, r.2.2)

/-- Lookup of a key in a payload dict (the dicts come from json.loads, as
association lists). -/
def lookupKey : List (String × JVal) → String → Option JVal
  | [], _ => none
  | (k, v) :: rest, key => if k = key then some v else lookupKey rest key

/-- One line as PrintAdapter.log_request prints it (source lines 114 to
115): the four payload columns, the success flag and the exception
column. -/
structure LogLine where
  request_type : JVal
  name : JVal
  response_time : JVal
  response_length : JVal
  success : Bool
  exception : Option JVal

/-- PrintAdapter.request_success (source lines 108 to 109), called with
the double-starred payload dict: Python raises TypeError when any of the
four required parameters is missing from the dict; extra keys land in the
ignored keyword rest. On success it logs with success True and exception
None. -/
def PrintAdapter.request_success (data : List (String × JVal)) : Except PyErr LogLine :=
  match lookupKey data "request_type", lookupKey data "name",
        lookupKey data "response_time", lookupKey data "response_length" with
  | some rt, some nm, some t, some l => Except.ok (LogLine.mk rt nm t l true none)
  | _, _, _, _ => Except.error PyErr.typeError

/-- PrintAdapter.handle_success (source lines 102 to 103). -/
def PrintAdapter.handle_success (data : List (String × JVal)) : Except PyErr LogLine :=
  PrintAdapter.request_success data

/-- PrintAdapter.handle_failure (source lines 105 to 106): it forwards the
failure payload to request_success, the success-formatting path. -/
def PrintAdapter.handle_failure (data : List (String × JVal)) : Except PyErr LogLine :=
  PrintAdapter.request_success data

/-- Outcome of the connectivity probe es.cluster.health() on source line
126: a healthy answer, a ConnectionError, or any other exception (caught
by the bare except on line 131). -/
inductive ProbeOutcome where
  | healthy
  | connectionError
  | otherError
deriving DecidableEq

/-- The AdapterError exception type defined on source lines 71 to 72. -/
inductive AdapterError where
  | adapterError
deriving DecidableEq

/-- A constructed Elasticsearch adapter: the client hosts and the index
name stored on source lines 120 to 121. -/
structure ESAdapter where
  hosts : List String
  index_name : String
deriving DecidableEq

/-- ElasticSearchAdapter constructor (source lines 119 to 134): the client
object is built without network activity; only when verify_connection is
set is the health probe run, and both the ConnectionError branch and the
bare except branch raise AdapterError. The probe outcome is passed in as
the environment response. -/
def ElasticSearchAdapter.init (elastic_hosts : List String) (index_name : String)
    (verify_connection : Bool) (probe : ProbeOutcome) : Except AdapterError ESAdapter :=
  let es := ESAdapter.mk elastic_hosts index_name
  if verify_connection then
    match probe with
    | ProbeOutcome.healthy => Except.ok es
    | ProbeOutcome.connectionError => Except.error AdapterError.adapterError
    | ProbeOutcome.otherError => Except.error AdapterError.adapterError
  else Except.ok es

/-- Two distinct PrintAdapter instances: same class, hence the same id()
string, but different object identities. -/
def paOne : PyObj :=
  PyObj.mk 1 "<class PrintAdapter>"

/-- Second PrintAdapter instance, distinct object. -/
def paTwo : PyObj :=
  PyObj.mk 2 "<class PrintAdapter>"

/-- An adapter whose handlers always raise. -/
def alwaysRaisingA : AdapterM :=
  AdapterM.mk "A" (fun _ => true)

/-- An adapter whose handlers always return normally. -/
def neverRaisingB : AdapterM :=
  AdapterM.mk "B" (fun _ => false)

/-- Another always-raising adapter, registered alone. -/
def alwaysRaisingC : AdapterM :=
  AdapterM.mk "C" (fun _ => true)

/-- A success message used in the dispatch counterexamples. -/
def msgSuccess1 : Msg :=
  Msg.mk "success" (JVal.jobj [])

/-- First admitted message of the ordering counterexample. -/
def msgFirst : Msg :=
  Msg.mk "success" (JVal.jobj [("name", JVal.jstr "m1")])

/-- Second admitted message of the ordering counterexample. -/
def msgSecond : Msg :=
  Msg.mk "failure" (JVal.jobj [("name", JVal.jstr "m2")])

/-- A well-behaved console adapter for the ordering witness. -/
def wConsole : AdapterM :=
  AdapterM.mk "console" (fun _ => false)

/-- A well-behaved indexing adapter for the ordering witness. -/
def wIndexer : AdapterM :=
  AdapterM.mk "indexer" (fun _ => false)

/-- A success message for the ordering witness. -/
def wMsgS : Msg :=
  Msg.mk "success" (JVal.jobj [])

/-- A failure message for the ordering witness. -/
def wMsgF : Msg :=
  Msg.mk "failure" (JVal.jobj [])

/-- A generic message used when filling the queue. -/
def someMsg : Msg :=
  Msg.mk "success" (JVal.jobj [])

/-- A failure-kind payload per the data model: it carries an exception
field and no response_length field. -/
def failurePayload : List (String × JVal) :=
  [("request_type", JVal.jstr "GET"), ("name", JVal.jstr "/login"),
   ("response_time", JVal.jnum 100), ("exception", JVal.jstr "boom"),
   ("other", JVal.jobj [])]

/-- A success-kind payload with all four required fields. -/
def successPayload : List (String × JVal) :=
  [("request_type", JVal.jstr "POST"), ("name", JVal.jstr "/login"),
   ("response_time", JVal.jnum 120), ("response_length", JVal.jnum 512),
   ("other", JVal.jobj [])]

/-- Helper: on a queue with maxsize zero (the bare Queue() default) every
put is admitted and appends in FIFO order. -/
theorem addAll_unbounded (items ms : List Msg) :
    addAll (PyQueue.mk 0 items) ms = some (PyQueue.mk 0 (items ++ ms)) := by
  induction ms generalizing items with
  | nil => simp [addAll]
  | cons m rest ih =>
    simp [addAll, ForwardingListener.add, PyQueue.put, ih]

/-- Helper: when no backend raises on the message, the fan-out invokes
every backend once, in registry iteration order, with no escaping
exception. -/
theorem fanoutMsg_no_raise (bs : List AdapterM) (m : Msg)
    (h : ∀ b ∈ bs, b.raisesOn m = false) :
    fanoutMsg bs m = (bs.map (fun b => (b.name, route m, m)), false) := by
  induction bs with
  | nil => rfl
  | cons b rest ih =>
    have hb : b.raisesOn m = false := h b (List.mem_cons_self b rest)
    have hr := ih (fun x hx => h x (List.mem_cons_of_mem b hx))
    simp [fanoutMsg, hb, hr]

/-- C1 counterexample. The claim says that a failure raised by one
adapter never prevents delivery to the other adapters and that no
exception escapes the dispatch loop. In the code the for loop of run has
no try-except: with an always-raising adapter A and a well-behaved adapter
B registered, dispatching one event completes zero deliveries (B never
receives the event) and the exception escapes, ending the loop. -/
theorem run_exception_escapes_cex :
    runLoop false [alwaysRaisingA, neverRaisingB] [msgSuccess1] =
      ([], RunExit.exception, []) := rfl

/-- C1 amended. An exception raised by an adapter handler propagates out
of the body of run and terminates the dispatch loop: when the first
adapter in iteration order raises on the dequeued event, no delivery
completes for that event, adapters after it never receive it, and the
remaining queued events are left undispatched. -/
theorem run_exception_escapes (rest : List AdapterM) (m : Msg) (q : List Msg) :
    runLoop false (alwaysRaisingA :: rest) (m :: q) = ([], RunExit.exception, q) := rfl

/-- C2. The claim says every request_failure call enqueues exactly one
failure event and returns normally. In the code ERR_TEMPLATE has five
percent-s placeholders while line 39 supplies a six-element tuple (a
literal ERR string is inserted before response_time), so the percent
formatting raises TypeError on every call and nothing is ever enqueued:
for all arguments the call errors with TypeError and the queue is
unchanged. -/
theorem request_failure_always_type_error (queue : List Msg) (request_type name : String)
    (response_time : Nat) (exception : String) (kwargs : List (String × JVal)) :
    ForwardingListener.request_failure queue request_type name response_time exception kwargs =
      Except.error PyErr.typeError := rfl

/-- C3 counterexample. The claim says that after adding two adapter
instances with the same id() string the registry holds exactly one entry.
BackendAdapter defines hash from id() but never overrides equality, so
the Python set compares by object identity: two distinct PrintAdapter
instances share an id() yet both remain in the registry. -/
theorem add_backend_duplicate_id_cex :
    BackendAdapter.id paOne = BackendAdapter.id paTwo ∧
      ForwardingListener.add_backend (ForwardingListener.add_backend [] paOne) paTwo =
        [paOne, paTwo] := ⟨rfl, rfl⟩

/-- C3 amended. For two adapter instances with equal id() but distinct
object identity, add_backend keeps both: the registry set deduplicates by
the default object equality, not by id(). Only re-adding the very same
object is a no-op. -/
theorem add_backend_identity_semantics (a b : PyObj)
    (_hid : BackendAdapter.id a = BackendAdapter.id b) (hne : a.objId ≠ b.objId) :
    ForwardingListener.add_backend (ForwardingListener.add_backend [] a) b = [a, b] ∧
      ForwardingListener.add_backend (ForwardingListener.add_backend [] a) a = [a] := by
  have h1 : ForwardingListener.add_backend [] a = [a] := by
    simp [ForwardingListener.add_backend]
  refine ⟨?_, ?_⟩
  · rw [h1]
    simp [ForwardingListener.add_backend, pyMatch, pyEq, hne]
  · rw [h1]
    simp [ForwardingListener.add_backend, pyMatch, pyEq, pyHash]

/-- C3 witness: the amended statement at the two concrete PrintAdapter
instances. -/
theorem add_backend_identity_semantics_witness :
    BackendAdapter.id paOne = BackendAdapter.id paTwo ∧ paOne.objId ≠ paTwo.objId ∧
      (ForwardingListener.add_backend (ForwardingListener.add_backend [] paOne) paTwo =
          [paOne, paTwo] ∧
        ForwardingListener.add_backend (ForwardingListener.add_backend [] paOne) paOne =
          [paOne]) :=
  ⟨rfl, by decide, add_backend_identity_semantics paOne paTwo rfl (by decide)⟩

/-- C4 counterexample. The claim says the event queue has a bounded
capacity C. The forwarder queue is created as a bare Queue(), maxsize
zero, meaning unbounded: no bound C holds over the admitted lengths, since
for every C all C plus one puts of a replicate list are admitted. -/
theorem forwarder_queue_unbounded_cex :
    ¬ ∃ C : Nat, ∀ (ms : List Msg) (q2 : PyQueue),
        addAll forwarderQueueInit ms = some q2 → q2.items.length ≤ C := by
  rintro ⟨C, h⟩
  have hall : addAll forwarderQueueInit (List.replicate (C + 1) someMsg) =
      some (PyQueue.mk 0 (List.replicate (C + 1) someMsg)) := by
    simpa [forwarderQueueInit] using
      addAll_unbounded [] (List.replicate (C + 1) someMsg)
  have hle := h (List.replicate (C + 1) someMsg) (PyQueue.mk 0 (List.replicate (C + 1) someMsg)) hall
  simp [List.length_replicate] at hle

/-- C4 amended. The forwarder queue is unbounded: add (Queue.put on a
maxsize-zero queue) admits every event immediately, never blocks the
producer, never reports a full-queue condition, and never drops an event,
for any sequence of admissions. -/
theorem forwarder_queue_admits_all (ms : List Msg) :
    addAll forwarderQueueInit ms = some (PyQueue.mk 0 ms) := by
  simpa [forwarderQueueInit] using addAll_unbounded [] ms

/-- C5. The claim says PrintAdapter never fails, in particular that
handle_failure completes normally on every failure-kind payload. In the
code handle_failure forwards the payload to request_success, whose
signature requires a response_length argument; a failure payload carries
exception but no response_length, so the double-starred call raises
TypeError. The success path, whose payload has all four required fields,
does complete normally. -/
theorem print_adapter_handle_failure_raises :
    PrintAdapter.handle_failure failurePayload = Except.error PyErr.typeError ∧
      PrintAdapter.handle_success successPayload =
        Except.ok (LogLine.mk (JVal.jstr "POST") (JVal.jstr "/login") (JVal.jnum 120)
          (JVal.jnum 512) true none) := ⟨rfl, rfl⟩

/-- C6 counterexample. The claim says removing a backend whose identity is
absent is a no-op that never raises. remove_backend calls set.remove,
which raises KeyError on a missing element: removing from the empty
registry errors. -/
theorem remove_backend_missing_raises_cex :
    ForwardingListener.remove_backend [] paOne = Except.error PyKeyError.keyError := rfl

/-- C6 amended. remove_backend removes exactly the given present object
and leaves the rest, but on an adapter that is not in the registry it
raises KeyError instead of being a no-op. -/
theorem remove_backend_semantics (a b : PyObj) (hne : a.objId ≠ b.objId) :
    ForwardingListener.remove_backend [a, b] a = Except.ok [b] ∧
      ForwardingListener.remove_backend [b] a = Except.error PyKeyError.keyError ∧
      ForwardingListener.remove_backend [] a = Except.error PyKeyError.keyError := by
  have hba : pyMatch b a = false := by
    simp [pyMatch, pyEq]
    intro _ he
    exact hne he.symm
  have haa : pyMatch a a = true := by
    simp [pyMatch, pyEq, pyHash]
  refine ⟨?_, ?_, ?_⟩
  · simp [ForwardingListener.remove_backend, hba, haa, List.filter]
  · simp [ForwardingListener.remove_backend, hba]
  · rfl

/-- C6 witness: the amended statement at the two concrete adapter
instances. -/
theorem remove_backend_semantics_witness :
    paOne.objId ≠ paTwo.objId ∧
      (ForwardingListener.remove_backend [paOne, paTwo] paOne = Except.ok [paTwo] ∧
        ForwardingListener.remove_backend [paTwo] paOne = Except.error PyKeyError.keyError ∧
        ForwardingListener.remove_backend [] paOne = Except.error PyKeyError.keyError) :=
  ⟨by decide, remove_backend_semantics paOne paTwo (by decide)⟩

/-- C7 counterexample. The claim says every adapter registered before
admission receives exactly the admitted events, each once, in admission
order. With a single registered adapter whose handler raises and two
admitted events, the loop dies on the first event: the adapter completes
no delivery at all and the second event is never dispatched to anyone. -/
theorem run_order_cex :
    runLoop false [alwaysRaisingC] [msgFirst, msgSecond] =
      ([], RunExit.exception, [msgSecond]) := rfl

/-- C7 amended. Provided no registered adapter handler raises, the
dispatch loop delivers each admitted event to every registered adapter
exactly once, processing events in admission order and routing
failure-kind events to handle_failure and all others to handle_success:
the completed deliveries are exactly the admitted events in order, each
fanned out over the registry in iteration order. -/
theorem run_delivers_in_order (bs : List AdapterM) (q : List Msg)
    (h : ∀ b ∈ bs, ∀ m, b.raisesOn m = false) :
    runLoop false bs q =
      (q.flatMap (fun m => bs.map (fun b => (b.name, route m, m))), RunExit.blocked, []) := by
  induction q with
  | nil => rfl
  | cons m rest ih =>
    have hf : fanoutMsg bs m = (bs.map (fun b => (b.name, route m, m)), false) :=
      fanoutMsg_no_raise bs m (fun b hb => h b hb m)
    simp [runLoop, hf, ih]

/-- C7 witness: the amended statement at two well-behaved adapters and a
success event followed by a failure event. -/
theorem run_delivers_in_order_witness :
    runLoop false [wConsole, wIndexer] [wMsgS, wMsgF] =
      (([wMsgS, wMsgF]).flatMap
          (fun m => ([wConsole, wIndexer]).map (fun b => (b.name, route m, m))),
        RunExit.blocked, []) := by
  refine run_delivers_in_order [wConsole, wIndexer] [wMsgS, wMsgF] ?_
  intro b hb m
  rw [List.mem_cons] at hb
  rcases hb with rfl | hb
  · rfl
  rw [List.mem_cons] at hb
  rcases hb with rfl | hb
  · rfl
  exact absurd hb (List.not_mem_nil b)

/-- C8. The claim: construction raises AdapterError exactly when
verification was requested and the probe fails, and with verification off
no probe runs and construction succeeds. In the code the constructor
stores the client and index name, probes only under verify_connection, and
maps both the ConnectionError branch and the bare except branch to
AdapterError; with verification off the result is the constructed adapter
whatever the cluster state is. -/
theorem es_init_raises_iff (hosts : List String) (idx : String) (verify : Bool)
    (probe : ProbeOutcome) :
    (ElasticSearchAdapter.init hosts idx verify probe = Except.error AdapterError.adapterError ↔
        verify = true ∧ probe ≠ ProbeOutcome.healthy) ∧
      ElasticSearchAdapter.init hosts idx false probe = Except.ok (ESAdapter.mk hosts idx) := by
  refine ⟨?_, rfl⟩
  cases verify <;> cases probe <;> simp [ElasticSearchAdapter.init]

/-- C9 counterexample. The claim: after shutdown is requested the
dispatcher terminates with every event queued before shutdown dispatched
and none dropped. With the quit flag set and five events queued, the while
condition fails at the top of the loop and run returns at once: zero
deliveries complete and all five queued events are left behind. -/
theorem run_shutdown_drops_cex :
    runLoop true [neverRaisingB] (List.replicate 5 someMsg) =
      ([], RunExit.quitNow, List.replicate 5 someMsg) := rfl

/-- C9 amended. There is no closed sentinel: when the quit flag is
observed at the top of the loop the dispatcher exits immediately, leaving
every still-queued event undispatched; and while quit is unset a dequeue
on the empty queue blocks forever, since Queue.get has no timeout and
nothing ever closes the queue. -/
theorem run_shutdown_semantics :
    (∀ (bs : List AdapterM) (q : List Msg), runLoop true bs q = ([], RunExit.quitNow, q)) ∧
      ∀ bs : List AdapterM, runLoop false bs [] = ([], RunExit.blocked, []) := by
  refine ⟨?_, fun bs => rfl⟩
  intro bs q
  cases q <;> rfl

/-- C10 counterexample. The claim says that any name containing a
double-quote or backslash makes request_success raise a JSON parsing error
with no event enqueued. A name whose backslash happens to form a valid
JSON escape parses fine: with the name a backslash b, the interpolated
text contains the escape backslash-b, json.loads accepts it as a backspace
character, and the event is enqueued, with a silently different name in
its payload. -/
theorem request_success_backslash_admits_cex :
    ForwardingListener.request_success [] "GET" "a\\b" 3 7 [] =
      Except.ok [Msg.mk "success" (JVal.jobj
        [("request_type", JVal.jstr "GET"), ("name", JVal.jstr "a\x08"),
         ("response_time", JVal.jnum 3), ("response_length", JVal.jnum 7),
         ("other", JVal.jobj [])])] := rfl

/-- C10 amended. The success hook is indeed not total over its string
inputs, because the payload is built by raw interpolation into a JSON
template and re-parsed: a name with a structure-breaking double-quote
(such as x-quote-y) makes json.loads fail and nothing is enqueued, while a
clean name translates into exactly one success event. But success does not
imply the fields were free of quotes and backslashes: a backslash forming
a valid JSON escape is accepted and silently alters the payload. -/
theorem request_success_json_partiality :
    ForwardingListener.request_success [] "GET" "x\"y" 3 7 [] =
        Except.error PyErr.jsonDecodeError ∧
      ForwardingListener.request_success [] "GET" "/login" 3 7 [] =
        Except.ok [Msg.mk "success" (JVal.jobj
          [("request_type", JVal.jstr "GET"), ("name", JVal.jstr "/login"),
           ("response_time", JVal.jnum 3), ("response_length", JVal.jnum 7),
           ("other", JVal.jobj [])])] ∧
      ForwardingListener.request_success [] "GET" "a\\b" 3 7 [] =
        Except.ok [Msg.mk "success" (JVal.jobj
          [("request_type", JVal.jstr "GET"), ("name", JVal.jstr "a\x08"),
           ("response_time", JVal.jnum 3), ("response_length", JVal.jnum 7),
           ("other", JVal.jobj [])])] := ⟨rfl, rfl, rfl⟩
